import Mathlib

/-!
# Verification of the astro-brain chart engine (`src/main.py`)

This file gives a shallow embedding of the computation pipeline of the
`/chart` endpoint in `src/main.py` and proves / refutes the specification
claims about it.

External collaborators are modelled as explicit parameters:
* the timezone database (`dateutil.tz.gettz`) is a `String → Option TZ`;
* the skyfield ephemeris observation (`location.at(t).observe(body)
  .ecliptic_position().km`) is an `observe` function returning a 3D vector;
* the apparent Greenwich sidereal time `t.gast` (hours) is a `gast` function.

CPython's `datetime.strptime` for the three fixed formats `"%Y-%m-%d"`,
`"%H:%M"` and `"%Y-%m-%d %H:%M"` is modelled from CPython's `_strptime`
regexes, restricted to ASCII digits:
  `%Y ↦ \d\d\d\d`, `%m ↦ 1[0-2]|0[1-9]|[1-9]`,
  `%d ↦ 3[0-1]|[1-2]\d|0[1-9]|[1-9]| [1-9]` (the last alternative is the
  space-padded day), `%H ↦ 2[0-3]|[0-1]\d|\d`, `%M ↦ [0-5]\d|\d`,
with the regex matched greedily from the start (alternatives tried in order,
backtracking driven by the rest of the pattern), the "unconverted data
remains" check performed after the match, and the `datetime` constructor's
calendar validation (year 1..9999, day within month) applied to the parsed
fields.
-/

/-- Character class `[lo-hi]` on ASCII codes, as used by the strptime regexes. -/
def cls (lo hi : ℕ) (c : Char) : Bool :=
  decide (lo ≤ c.toNat) && decide (c.toNat ≤ hi)

/-- The regex class `\d`, restricted to ASCII digits `0`-`9`. -/
def isDig : Char → Bool := cls 48 57

/-- Numeric value of a matched group, as computed by Python's `int`, which
ignores surrounding whitespace (the space-padded day alternative of `%d` can
contribute a leading padding space to the group). -/
def toNum (ds : List Char) : ℕ :=
  ds.foldl (fun n c => if isDig c = true then 10 * n + (c.toNat - 48) else n) 0

/-- Match a fixed sequence of character classes against a prefix of the input,
returning the matched characters and the remainder. -/
def matchClasses : List (Char → Bool) → List Char → Option (List Char × List Char)
  | [], cs => some ([], cs)
  | _ :: _, [] => none
  | p :: ps, c :: cs =>
    if p c then
      match matchClasses ps cs with
      | some (m, r) => some (c :: m, r)
      | none => none
    else none

/-- Match a single literal character. -/
def lit (a : Char) : List Char → Option (List Char)
  | c :: cs => if c = a then some cs else none
  | [] => none

/-- Ordered regex alternation `a₁|a₂|…` of fixed class sequences, with
backtracking driven by the continuation `k` (the rest of the pattern):
the first alternative whose classes match and whose continuation succeeds
wins, exactly as in a backtracking regex engine. -/
def altK {α : Type} : List (List (Char → Bool)) → List Char → (List Char → Option α) →
    Option (List Char × α)
  | [], _, _ => none
  | a :: rest, cs, k =>
    match matchClasses a cs with
    | some (m, r) =>
      match k r with
      | some v => some (m, v)
      | none => altK rest cs k
    | none => altK rest cs k

/-- CPython strptime alternatives for `%m`: `1[0-2]|0[1-9]|[1-9]`. -/
def monthAlts : List (List (Char → Bool)) :=
  [[cls 49 49, cls 48 50], [cls 48 48, cls 49 57], [cls 49 57]]

/-- CPython strptime alternatives for `%d`:
`3[0-1]|[1-2]\d|0[1-9]|[1-9]| [1-9]` — the fifth, last alternative is the
space-padded day `" [1-9]"` (space is code 32). -/
def dayAlts : List (List (Char → Bool)) :=
  [[cls 51 51, cls 48 49], [cls 49 50, isDig], [cls 48 48, cls 49 57], [cls 49 57],
   [cls 32 32, cls 49 57]]

/-- CPython strptime alternatives for `%H`: `2[0-3]|[0-1]\d|\d`. -/
def hourAlts : List (List (Char → Bool)) :=
  [[cls 50 50, cls 48 51], [cls 48 49, isDig], [isDig]]

/-- CPython strptime alternatives for `%M`: `[0-5]\d|\d`. -/
def minuteAlts : List (List (Char → Bool)) :=
  [[cls 48 53, isDig], [isDig]]

/-- The regex part of `"%H:%M"`: hour digits, `:`, minute digits, remainder. -/
def time_regex (cs : List Char) : Option (List Char × List Char × List Char) :=
  altK hourAlts cs (fun r1 =>
    match lit ':' r1 with
    | some r2 => altK minuteAlts r2 (fun r3 => some r3)
    | none => none)

/-- The pattern fragment `-%d` followed by the continuation `k`
(the rest of the pattern after the day group). -/
def kMonth {α : Type} (k : List Char → Option α) (r3 : List Char) :
    Option (List Char × α) :=
  match lit '-' r3 with
  | none => none
  | some r4 => altK dayAlts r4 k

/-- The regex part of `"%Y-%m-%d"` followed by an arbitrary continuation `k`
(the rest of the pattern): year, month and day digit groups plus the
continuation's result. -/
def date_regexK {α : Type} (cs : List Char) (k : List Char → Option α) :
    Option (List Char × List Char × List Char × α) :=
  match matchClasses [isDig, isDig, isDig, isDig] cs with
  | none => none
  | some (yd, r1) =>
    match lit '-' r1 with
    | none => none
    | some r2 =>
      match altK monthAlts r2 (kMonth k) with
      | none => none
      | some (md, dd, a) => some (yd, md, dd, a)

/-- The continuation ` %H:%M` of the combined format: a literal space
followed by the time pattern. -/
def kSpaceTime (r : List Char) : Option (List Char × List Char × List Char) :=
  match lit ' ' r with
  | some r2 => time_regex r2
  | none => none

/-- Days in a month of the proleptic Gregorian calendar, as used by
CPython's `datetime` constructor validation. -/
def daysInMonth (y m : ℕ) : ℕ :=
  if m = 2 then (if y % 4 = 0 ∧ (y % 100 ≠ 0 ∨ y % 400 = 0) then 29 else 28)
  else if m = 4 ∨ m = 6 ∨ m = 9 ∨ m = 11 then 30 else 31

/-- The `datetime` constructor's validation of a calendar date. -/
def validYMD (y m d : ℕ) : Bool :=
  decide (1 ≤ y) && decide (y ≤ 9999) && decide (1 ≤ m) && decide (m ≤ 12) &&
    decide (1 ≤ d) && decide (d ≤ daysInMonth y m)

/-- The `datetime` constructor's validation of a time of day. -/
def validHM (h mi : ℕ) : Bool :=
  decide (h ≤ 23) && decide (mi ≤ 59)

/-- Model of `datetime.strptime(f"{date} {time}", "%Y-%m-%d %H:%M")` as
called inside the `chart` endpoint (step 1 of `chart`). -/
def strptime_datetime (cs : List Char) : Option (ℕ × ℕ × ℕ × ℕ × ℕ) :=
  match date_regexK cs kSpaceTime with
  | some (yd, md, dd, hd, mid, rest) =>
    if rest = [] ∧ validYMD (toNum yd) (toNum md) (toNum dd) = true ∧
        validHM (toNum hd) (toNum mid) = true then
      some (toNum yd, toNum md, toNum dd, toNum hd, toNum mid)
    else none
  | none => none

/-! ## The chart computation pipeline of `src/main.py` -/

/-- A naive local/universal datetime `(year, month, day, hour, minute)`,
as produced by `datetime.strptime` on the request fields. -/
def DT : Type := ℕ × ℕ × ℕ × ℕ × ℕ

/-- A resolved timezone: the local-to-UTC conversion it induces
(`dt_local.replace(tzinfo=zone).astimezone(tz.UTC)` is a function of the
zone and the local datetime; its rules, DST included, are opaque here). -/
def TZ : Type := DT → DT

/-- Model of `to_utc` in `src/main.py`: resolve the zone name through the
timezone database (`tz.gettz`, passed in as `gettz`); if it does not
resolve (returns `None` or raises), raise
`ValueError(f"Unknown timezone: {tz_name}")`; otherwise attach the zone and
convert to UTC. -/
def to_utc (gettz : String → Option TZ) (dt_local : DT) (tz_name : String) :
    Except String DT :=
  match gettz tz_name with
  | none => Except.error ("Unknown timezone: " ++ tz_name)
  | some local_zone => Except.ok (local_zone dt_local)

/-- Python's float modulo `x % m` (sign of the divisor):
`x - m * floor(x / m)`, read over the reals. -/
noncomputable def pymod (x m : ℝ) : ℝ := x - m * ⌊x / m⌋

/-- `math.degrees`: radians to degrees. -/
noncomputable def degrees (r : ℝ) : ℝ := r * (180 / Real.pi)

/-- `math.atan2(y, x)`: the argument of the complex number `x + y*I`,
in `(-π, π]` with `atan2 0 0 = 0`, exactly as in C/Python. -/
noncomputable def atan2 (y x : ℝ) : ℝ := Complex.arg ⟨x, y⟩

/-- The coordinate-reduction part of `ecliptic_longitude` in `src/main.py`:
from the observed ecliptic position vector `(x, y, z)` (in km), return
`(degrees(atan2(y, x)) + 360.0) % 360.0`.  The observation step
(`location.at(t).observe(body).ecliptic_position().km`) is the external
skyfield call, modelled by the `observe` parameter of `chart`. -/
noncomputable def ecliptic_longitude (km : ℝ × ℝ × ℝ) : ℝ :=
  pymod (degrees (atan2 km.2.1 km.1) + 360) 360

/-- Model of `compute_asc_mc` in `src/main.py`.  `gast` is the value
`t.gast` (apparent Greenwich sidereal time, in hours) supplied by skyfield
for the instant `t`.  The function builds an (unused) observer location from
`lat_deg`/`lon_deg`, takes `apparent_sidereal = t.gast * 15.0` degrees, and
returns `asc = (apparent_sidereal + 90.0) % 360.0`,
`mc = apparent_sidereal % 360.0`. -/
noncomputable def compute_asc_mc (gast : ℝ) (lat_deg lon_deg : ℝ) : ℝ × ℝ :=
  let apparent_sidereal := gast * 15
  let mc := pymod apparent_sidereal 360
  let asc := pymod (apparent_sidereal + 90) 360
  (asc, mc)

/-- The fixed body-name-to-catalog-key table `PLANET_KEYS` of `src/main.py`,
in source (insertion) order. -/
def PLANET_KEYS : List (String × String) :=
  [("sun", "sun"),
   ("moon", "moon"),
   ("mercury", "mercury"),
   ("venus", "venus"),
   ("mars", "mars"),
   ("jupiter", "jupiter barycenter"),
   ("saturn", "saturn barycenter"),
   ("uranus", "uranus barycenter"),
   ("neptune", "neptune barycenter"),
   ("pluto", "pluto barycenter")]

/-- The validated request body (`ChartRequest` in `src/main.py`). -/
structure ChartRequest where
  date : String
  time : String
  timezone : String
  lat : ℝ
  lon : ℝ

/-- `fastapi.HTTPException`: status code and detail string. -/
structure HTTPError where
  status : ℕ
  detail : String

/-- The JSON-serializable values returned by the endpoint. -/
inductive Json : Type
  | null : Json
  | str : String → Json
  | num : ℝ → Json
  | obj : List (String × Json) → Json

/-- Key lookup in a JSON object's field list (first match). -/
def jLookup : List (String × Json) → String → Option Json
  | [], _ => none
  | (k, v) :: fs, key => if k = key then some v else jLookup fs key

/-- Fetch the value of `key` in a JSON object. -/
def jsonGet : Json → String → Option Json
  | Json.obj fs, key => jLookup fs key
  | _, _ => none

/-- The list of keys of a JSON object. -/
def jsonKeys : Json → Option (List String)
  | Json.obj fs => some (fs.map Prod.fst)
  | _ => none

/-- Whether a JSON object has the given key. -/
def jsonHasKey : Json → String → Bool
  | Json.obj fs, key => fs.any (fun p => p.1 == key)
  | _, _ => false

/-- Model of the `/chart` endpoint (`chart` in `src/main.py`).
`gettz` is the timezone database, `observe key t (lat, lon)` the skyfield
topocentric ecliptic position vector of the body with catalog key `key` at
time `t`, and `gast t` the apparent Greenwich sidereal time in hours. -/
noncomputable def chart (gettz : String → Option TZ)
    (observe : String → DT → ℝ × ℝ → ℝ × ℝ × ℝ) (gast : DT → ℝ)
    (req : ChartRequest) : Except HTTPError Json :=
  match strptime_datetime ((req.date ++ " " ++ req.time).data) with
  | none => Except.error ⟨400, "Invalid date or time format"⟩
  | some dt_local =>
    match to_utc gettz dt_local req.timezone with
    | Except.error e => Except.error ⟨400, e⟩
    | Except.ok dt_utc =>
      let t := dt_utc
      let observer := (req.lat, req.lon)
      let planets : List (String × Json) := PLANET_KEYS.map (fun p =>
        (p.1, Json.obj [("lon", Json.num (ecliptic_longitude (observe p.2 t observer)))]))
      let amc := compute_asc_mc (gast t) req.lat req.lon
      Except.ok (Json.obj
        [("engine", Json.str "skyfield_de421"),
         ("input", Json.obj
           [("date", Json.str req.date),
            ("time", Json.str req.time),
            ("timezone", Json.str req.timezone),
            ("lat", Json.num req.lat),
            ("lon", Json.num req.lon)]),
         ("chart", Json.obj
           [("asc", Json.num amc.1),
            ("mc", Json.num amc.2),
            ("planets", Json.obj planets)])])

/-- `true` iff the endpoint returned a successful (non-error) response. -/
def exOk : Except HTTPError Json → Bool
  | Except.ok _ => true
  | Except.error _ => false

/-- The JSON body of a successful response. -/
def okJson : Except HTTPError Json → Option Json
  | Except.ok j => some j
  | Except.error _ => none

/-- Top-level keys of a successful response. -/
def respTopKeys (r : Except HTTPError Json) : Option (List String) :=
  (okJson r).bind jsonKeys

/-- The `chart` object of a successful response. -/
def respChartObj (r : Except HTTPError Json) : Option Json :=
  (okJson r).bind (fun j => jsonGet j "chart")

/-- Keys of the `chart` object of a successful response. -/
def respChartKeys (r : Except HTTPError Json) : Option (List String) :=
  (respChartObj r).bind jsonKeys

/-- The `planets` mapping of a successful response. -/
def respPlanets (r : Except HTTPError Json) : Option Json :=
  (respChartObj r).bind (fun c => jsonGet c "planets")

/-- The body names present in the `planets` mapping of a successful response. -/
def respPlanetNames (r : Except HTTPError Json) : Option (List String) :=
  (respPlanets r).bind jsonKeys

/-- The keys of one body's entry in the `planets` mapping. -/
def respBodyKeys (r : Except HTTPError Json) (name : String) : Option (List String) :=
  ((respPlanets r).bind (fun p => jsonGet p name)).bind jsonKeys

/-- Whether one body's entry in the `planets` mapping has the given key. -/
def respBodyHasKey (r : Except HTTPError Json) (name key : String) : Bool :=
  match (respPlanets r).bind (fun p => jsonGet p name) with
  | some entry => jsonHasKey entry key
  | none => false

/-- Whether a successful response has the given top-level key. -/
def respTopHasKey (r : Except HTTPError Json) (key : String) : Bool :=
  match okJson r with
  | some j => jsonHasKey j key
  | none => false

/-- Whether the `chart` object of a successful response has the given key. -/
def respChartHasKey (r : Except HTTPError Json) (key : String) : Bool :=
  match respChartObj r with
  | some c => jsonHasKey c key
  | none => false

/-- A character class that accepts only ASCII digits. -/
def SubDig (p : Char → Bool) : Prop := ∀ c, p c = true → isDig c = true

/-! ## Definitions modelled from the spec's words (for refinement claims) -/

/-- Modelled from the spec (§4.3): `midheaven = siderealDegrees mod 360`,
where `siderealDegrees` is apparent Greenwich sidereal time in hours × 15. -/
noncomputable def spec_midheaven (gastHours : ℝ) : ℝ := pymod (gastHours * 15) 360

/-- Modelled from the spec (§4.3): `ascendant = (siderealDegrees + 90) mod 360`. -/
noncomputable def spec_ascendant (gastHours : ℝ) : ℝ := pymod (gastHours * 15 + 90) 360

/-- Modelled from the spec (§4.2): longitude = `atan2(y, x)` converted to
degrees, plus 360, modulo 360. -/
noncomputable def spec_longitude (x y : ℝ) : ℝ :=
  pymod (degrees (atan2 y x) + 360) 360

/-! ## Concrete instantiations of the external collaborators,
used by witnesses and counterexamples -/

/-- A timezone database that resolves every name to a zone acting as UTC. -/
def tzAll : String → Option TZ := fun _ => some (fun dt => dt)

/-- A timezone database that resolves no name. -/
def tzNone : String → Option TZ := fun _ => none

/-- An ephemeris observation returning the fixed vector `(1, 0, 0)`. -/
noncomputable def obs0 : String → DT → ℝ × ℝ → ℝ × ℝ × ℝ := fun _ _ _ => (1, 0, 0)

/-- A sidereal-time function returning `0` hours. -/
noncomputable def gast0 : DT → ℝ := fun _ => 0

/-- The golden-test request of the spec (§8). -/
noncomputable def req0 : ChartRequest :=
  ⟨"1990-05-14", "15:30", "America/Toronto", 43.65, -79.38⟩


/-! ## Lemmas about the strptime model -/

theorem matchClasses_append (ps : List (Char → Bool)) :
    ∀ cs ds m r, matchClasses ps cs = some (m, r) →
      matchClasses ps (cs ++ ds) = some (m, r ++ ds) := by
  induction ps with
  | nil =>
    intro cs ds m r h
    simp only [matchClasses, Option.some.injEq, Prod.mk.injEq] at h
    obtain ⟨rfl, rfl⟩ := h
    rfl
  | cons p ps ih =>
    intro cs ds m r h
    cases cs with
    | nil => simp [matchClasses] at h
    | cons c cs =>
      cases hpc : p c with
      | false => simp [matchClasses, hpc] at h
      | true =>
        cases hmc : matchClasses ps cs with
        | none => simp [matchClasses, hpc, hmc] at h
        | some pr =>
          obtain ⟨m0, r0⟩ := pr
          simp only [matchClasses, hpc, hmc, if_true, Option.some.injEq,
            Prod.mk.injEq] at h
          obtain ⟨rfl, rfl⟩ := h
          simp [matchClasses, List.cons_append, hpc, ih cs ds m0 r0 hmc]

theorem matchClasses_none_append (ps : List (Char → Bool))
    (hsub : ∀ p ∈ ps, SubDig p) (d : Char) (hd : isDig d = false) (ds : List Char) :
    ∀ cs, matchClasses ps cs = none → matchClasses ps (cs ++ d :: ds) = none := by
  induction ps with
  | nil => intro cs h; simp [matchClasses] at h
  | cons p ps ih =>
    intro cs h
    cases cs with
    | nil =>
      cases hpd : p d with
      | false => simp [matchClasses, hpd]
      | true => exact absurd (hsub p (by simp) d hpd) (by simp [hd])
    | cons c cs =>
      cases hpc : p c with
      | false => simp [matchClasses, List.cons_append, hpc]
      | true =>
        cases hmc : matchClasses ps cs with
        | none =>
          have h2 := ih (fun q hq => hsub q (by simp [hq])) cs hmc
          simp [matchClasses, List.cons_append, hpc, h2]
        | some pr =>
          obtain ⟨m0, r0⟩ := pr
          exact absurd h (by simp [matchClasses, hpc, hmc])

theorem altK_none_extend {α β : Type} (alts : List (List (Char → Bool)))
    (hsub : ∀ a ∈ alts, ∀ p ∈ a, SubDig p)
    (d : Char) (hd : isDig d = false) (ds : List Char)
    (k : List Char → Option α) (kk : List Char → Option β)
    (hnone : ∀ r, k r = none → kk (r ++ d :: ds) = none) :
    ∀ cs, altK alts cs k = none → altK alts (cs ++ d :: ds) kk = none := by
  induction alts with
  | nil => intro cs _; rfl
  | cons a rest ih =>
    intro cs h
    cases hmc : matchClasses a cs with
    | none =>
      have h2 : altK rest cs k = none := by simpa only [altK, hmc] using h
      simp only [altK, matchClasses_none_append a (hsub a (by simp)) d hd ds cs hmc]
      exact ih (fun x hx => hsub x (by simp [hx])) cs h2
    | some pr =>
      obtain ⟨m0, r0⟩ := pr
      cases hk : k r0 with
      | none =>
        have h2 : altK rest cs k = none := by simpa only [altK, hmc, hk] using h
        simp only [altK, matchClasses_append a cs (d :: ds) m0 r0 hmc, hnone r0 hk]
        exact ih (fun x hx => hsub x (by simp [hx])) cs h2
      | some v0 => exact absurd h (by simp [altK, hmc, hk])

theorem pymod_eq_mul_fract (x : ℝ) {m : ℝ} (hm : m ≠ 0) :
    pymod x m = m * Int.fract (x / m) := by
  unfold pymod Int.fract
  field_simp

theorem pymod_nonneg (x : ℝ) {m : ℝ} (hm : 0 < m) : 0 ≤ pymod x m := by
  rw [pymod_eq_mul_fract x hm.ne']
  exact mul_nonneg hm.le (Int.fract_nonneg _)

theorem pymod_lt (x : ℝ) {m : ℝ} (hm : 0 < m) : pymod x m < m := by
  rw [pymod_eq_mul_fract x hm.ne']
  calc m * Int.fract (x / m) < m * 1 :=
        mul_lt_mul_of_pos_left (Int.fract_lt_one _) hm
    _ = m := mul_one m

/-! ## String helper lemmas -/

theorem string_data_append (s t : String) : (s ++ t).data = s.data ++ t.data := by
  cases s
  cases t
  rfl

theorem chart_input_data (d t : String) :
    (d ++ " " ++ t).data = d.data ++ ' ' :: t.data := by
  rw [string_data_append, string_data_append, List.append_assoc]
  rfl

theorem atan2_zero_zero : atan2 0 0 = 0 := by
  unfold atan2
  have h : (⟨0, 0⟩ : ℂ) = 0 := by
    apply Complex.ext <;> simp
  rw [h, Complex.arg_zero]

theorem ecliptic_longitude_zero_vec : ecliptic_longitude (0, 0, 0) = 0 := by
  unfold ecliptic_longitude
  rw [atan2_zero_zero]
  unfold degrees pymod
  norm_num

/-- Inversion: a successful chart response passed both the combined
date/time parse and the timezone resolution. -/
theorem chart_ok_inv (gettz : String → Option TZ)
    (observe : String → DT → ℝ × ℝ → ℝ × ℝ × ℝ) (gast : DT → ℝ) (req : ChartRequest)
    (hok : exOk (chart gettz observe gast req) = true) :
    ∃ dtl dtu, strptime_datetime ((req.date ++ " " ++ req.time).data) = some dtl ∧
      to_utc gettz dtl req.timezone = Except.ok dtu := by
  cases hp : strptime_datetime ((req.date ++ " " ++ req.time).data) with
  | none =>
    exfalso
    have hp2 : strptime_datetime (req.date.data ++ ' ' :: req.time.data) = none := by
      rw [← chart_input_data]
      exact hp
    simp [chart, hp2, exOk] at hok
  | some dtl =>
    cases htz : to_utc gettz dtl req.timezone with
    | error e =>
      exfalso
      have hp2 : strptime_datetime (req.date.data ++ ' ' :: req.time.data) = some dtl := by
        rw [← chart_input_data]
        exact hp
      simp [chart, hp2, htz, exOk] at hok
    | ok dtu => exact ⟨dtl, dtu, rfl, htz⟩

/-- The exact successful response object built by `chart` (step 5, 6 and the
final `return` of `src/main.py`). -/
theorem chart_ok_form (gettz : String → Option TZ)
    (observe : String → DT → ℝ × ℝ → ℝ × ℝ × ℝ) (gast : DT → ℝ) (req : ChartRequest)
    (dtl dtu : DT)
    (hp : strptime_datetime ((req.date ++ " " ++ req.time).data) = some dtl)
    (htz : to_utc gettz dtl req.timezone = Except.ok dtu) :
    chart gettz observe gast req = Except.ok (Json.obj
      [("engine", Json.str "skyfield_de421"),
       ("input", Json.obj
         [("date", Json.str req.date),
          ("time", Json.str req.time),
          ("timezone", Json.str req.timezone),
          ("lat", Json.num req.lat),
          ("lon", Json.num req.lon)]),
       ("chart", Json.obj
         [("asc", Json.num (compute_asc_mc (gast dtu) req.lat req.lon).1),
          ("mc", Json.num (compute_asc_mc (gast dtu) req.lat req.lon).2),
          ("planets", Json.obj (PLANET_KEYS.map (fun p =>
            (p.1, Json.obj [("lon", Json.num
              (ecliptic_longitude (observe p.2 dtu (req.lat, req.lon))))]))))])]) := by
  have hp2 : strptime_datetime (req.date.data ++ ' ' :: req.time.data) = some dtl := by
    rw [← chart_input_data]
    exact hp
  simp [chart, hp2, htz]


/-! ## The claims -/

/-- C1 (counterexample): at a concrete successful request, the sun entry of
the planets mapping has exactly the key `lon` and carries no
`isRetrograde`/`retrograde` flag, refuting the claim that every body entry
contains a retrograde flag obtained from two longitude samples. -/
theorem c1_counterexample :
    exOk (chart tzAll obs0 gast0 req0) = true ∧
    respBodyKeys (chart tzAll obs0 gast0 req0) "sun" = some ["lon"] ∧
    respBodyHasKey (chart tzAll obs0 gast0 req0) "sun" "isRetrograde" = false ∧
    respBodyHasKey (chart tzAll obs0 gast0 req0) "sun" "retrograde" = false :=
  ⟨rfl, rfl, rfl, rfl⟩

/-- C1 (amended): in every successful response, each of the ten bodies'
entries in the planets mapping contains only the key `lon` (the longitude at
the single request instant); no retrograde flag is computed or stored — the
code queries the ephemeris once per body and has no motion classifier. -/
theorem c1_amended_entries_only_lon (gettz : String → Option TZ)
    (observe : String → DT → ℝ × ℝ → ℝ × ℝ × ℝ) (gast : DT → ℝ) (req : ChartRequest)
    (nm : String) (hnm : nm ∈ PLANET_KEYS.map Prod.fst)
    (hok : exOk (chart gettz observe gast req) = true) :
    respBodyKeys (chart gettz observe gast req) nm = some ["lon"] := by
  obtain ⟨dtl, dtu, hp, htz⟩ := chart_ok_inv gettz observe gast req hok
  rw [chart_ok_form gettz observe gast req dtl dtu hp htz]
  simp only [PLANET_KEYS, List.map_cons, List.map_nil, List.mem_cons,
    List.not_mem_nil, or_false] at hnm
  rcases hnm with rfl | rfl | rfl | rfl | rfl | rfl | rfl | rfl | rfl | rfl <;> rfl

/-- C1 (witness): the amended statement instantiated at a concrete request
and the body `sun`. -/
theorem c1_witness :
    ("sun" ∈ PLANET_KEYS.map Prod.fst) ∧
    exOk (chart tzAll obs0 gast0 req0) = true ∧
    respBodyKeys (chart tzAll obs0 gast0 req0) "sun" = some ["lon"] :=
  ⟨by simp [PLANET_KEYS], rfl,
    c1_amended_entries_only_lon tzAll obs0 gast0 req0 "sun" (by simp [PLANET_KEYS]) rfl⟩

/-- C2 (counterexample): at a concrete successful request the response has
no `houses` key and no `true_node` key, neither at the top level nor inside
the `chart` object, refuting the claim that they are present as explicit
null-valued keys. -/
theorem c2_counterexample :
    exOk (chart tzAll obs0 gast0 req0) = true ∧
    respTopHasKey (chart tzAll obs0 gast0 req0) "houses" = false ∧
    respTopHasKey (chart tzAll obs0 gast0 req0) "true_node" = false ∧
    respChartHasKey (chart tzAll obs0 gast0 req0) "houses" = false ∧
    respChartHasKey (chart tzAll obs0 gast0 req0) "true_node" = false :=
  ⟨rfl, rfl, rfl, rfl, rfl⟩

/-- C2 (amended): successful responses contain no `houses` or `true_node`
keys at all: the top level has exactly the keys `engine`, `input`, `chart`,
and the chart object exactly `asc`, `mc`, `planets`. -/
theorem c2_amended_no_placeholder_keys (gettz : String → Option TZ)
    (observe : String → DT → ℝ × ℝ → ℝ × ℝ × ℝ) (gast : DT → ℝ) (req : ChartRequest)
    (hok : exOk (chart gettz observe gast req) = true) :
    respTopKeys (chart gettz observe gast req) = some ["engine", "input", "chart"] ∧
    respChartKeys (chart gettz observe gast req) = some ["asc", "mc", "planets"] := by
  obtain ⟨dtl, dtu, hp, htz⟩ := chart_ok_inv gettz observe gast req hok
  rw [chart_ok_form gettz observe gast req dtl dtu hp htz]
  exact ⟨rfl, rfl⟩

/-- C2 (witness): the amended statement at a concrete successful request. -/
theorem c2_witness :
    exOk (chart tzAll obs0 gast0 req0) = true ∧
    respTopKeys (chart tzAll obs0 gast0 req0) = some ["engine", "input", "chart"] ∧
    respChartKeys (chart tzAll obs0 gast0 req0) = some ["asc", "mc", "planets"] := by
  have h := c2_amended_no_placeholder_keys tzAll obs0 gast0 req0 rfl
  exact ⟨rfl, h.1, h.2⟩

/-- C3 (counterexample): the coordinate reduction does not fail on the zero
position vector — it returns exactly 0 degrees, which the claim says it must
never do. -/
theorem c3_counterexample : ecliptic_longitude (0, 0, 0) = 0 :=
  ecliptic_longitude_zero_vec

/-- C3 (amended): `ecliptic_longitude` is a total function with no error
path; on the zero vector it returns longitude 0 (the "Aries 0°" reading the
spec forbids), since `atan2 0 0 = 0`; no DegenerateVector error exists in
the code. -/
theorem c3_amended_zero_vector_total :
    atan2 0 0 = 0 ∧ ecliptic_longitude (0, 0, 0) = 0 :=
  ⟨atan2_zero_zero, ecliptic_longitude_zero_vec⟩

/-- C4 (counterexample): with the universal instant held fixed (gast value
0) and latitude fixed at 0, there is no pair of observer longitudes on which
the returned Ascendant/Midheaven differ — `compute_asc_mc` uses apparent
Greenwich (not local) sidereal time and ignores the longitude entirely,
refuting the claim that changing only the longitude changes the output. -/
theorem c4_counterexample :
    ¬ ∃ lon1 lon2 : ℝ, compute_asc_mc 0 0 lon1 ≠ compute_asc_mc 0 0 lon2 := by
  rintro ⟨lon1, lon2, hne⟩
  exact hne rfl

/-- C4 (amended): neither the observer's latitude nor longitude affects the
returned angles: `compute_asc_mc` is a function of the Greenwich apparent
sidereal time `t.gast` alone. -/
theorem c4_amended_location_independent (gast lat1 lon1 lat2 lon2 : ℝ) :
    compute_asc_mc gast lat1 lon1 = compute_asc_mc gast lat2 lon2 := rfl

/-- C5 (confirmed): for every timezone name the database cannot resolve,
`to_utc` fails with the error message `"Unknown timezone: " ++ name` (which
contains the offending name as a suffix), and never returns a successful
conversion in any default zone. -/
theorem c5_unknown_timezone (gettz : String → Option TZ) (dt : DT) (name : String)
    (hu : gettz name = none) :
    to_utc gettz dt name = Except.error ("Unknown timezone: " ++ name) ∧
    (∃ pre, "Unknown timezone: " ++ name = pre ++ name) ∧
    (∀ d : DT, to_utc gettz dt name ≠ Except.ok d) := by
  refine ⟨by simp [to_utc, hu], ⟨"Unknown timezone: ", rfl⟩, ?_⟩
  intro d hok
  simp [to_utc, hu] at hok

/-- C5 (witness): the spec's own test name `"Mars/Nonexistent"` under a
database that resolves nothing. -/
theorem c5_witness :
    tzNone "Mars/Nonexistent" = none ∧
    (to_utc tzNone ((1990, 5, 14, 15, 30) : DT) "Mars/Nonexistent" =
        Except.error ("Unknown timezone: " ++ "Mars/Nonexistent") ∧
      (∃ pre, "Unknown timezone: " ++ "Mars/Nonexistent" = pre ++ "Mars/Nonexistent") ∧
      (∀ d : DT, to_utc tzNone ((1990, 5, 14, 15, 30) : DT) "Mars/Nonexistent" ≠
        Except.ok d)) :=
  ⟨rfl, c5_unknown_timezone tzNone ((1990, 5, 14, 15, 30) : DT) "Mars/Nonexistent" rfl⟩

/-- C6 (confirmed): every successful response's planets mapping has exactly
the ten fixed lowercase body keys (never more, never fewer, independent of
the input), and the catalog keys used to query the ephemeris send the four
outer planets to their barycenter keys. -/
theorem c6_ten_fixed_bodies (gettz : String → Option TZ)
    (observe : String → DT → ℝ × ℝ → ℝ × ℝ × ℝ) (gast : DT → ℝ) (req : ChartRequest)
    (hok : exOk (chart gettz observe gast req) = true) :
    respPlanetNames (chart gettz observe gast req) =
      some ["sun", "moon", "mercury", "venus", "mars", "jupiter", "saturn",
        "uranus", "neptune", "pluto"] ∧
    PLANET_KEYS.map Prod.snd = ["sun", "moon", "mercury", "venus", "mars",
      "jupiter barycenter", "saturn barycenter", "uranus barycenter",
      "neptune barycenter", "pluto barycenter"] := by
  obtain ⟨dtl, dtu, hp, htz⟩ := chart_ok_inv gettz observe gast req hok
  rw [chart_ok_form gettz observe gast req dtl dtu hp htz]
  exact ⟨rfl, rfl⟩

/-- C6 (witness): the ten keys at a concrete successful request. -/
theorem c6_witness :
    exOk (chart tzAll obs0 gast0 req0) = true ∧
    respPlanetNames (chart tzAll obs0 gast0 req0) =
      some ["sun", "moon", "mercury", "venus", "mars", "jupiter", "saturn",
        "uranus", "neptune", "pluto"] :=
  ⟨rfl, (c6_ten_fixed_bodies tzAll obs0 gast0 req0 rfl).1⟩

/-- C7 (confirmed): the returned chart angles satisfy exactly the spec's
formulas: `midheaven = (gast·15) mod 360` and
`ascendant = (gast·15 + 90) mod 360`, for every instant (every gast value)
and every observer location. -/
theorem c7_angles_formula (gast lat lon : ℝ) :
    compute_asc_mc gast lat lon = (spec_ascendant gast, spec_midheaven gast) := rfl

/-- C8 (confirmed): for every non-zero position vector, the reduced
longitude equals `atan2(y, x)` in degrees plus 360 modulo 360, the z
component has no influence, and the result lies in `[0, 360)`. -/
theorem c8_longitude_formula (x y z : ℝ) (hnz : ¬(x = 0 ∧ y = 0 ∧ z = 0)) :
    ecliptic_longitude (x, y, z) = spec_longitude x y ∧
    (∀ z2 : ℝ, ecliptic_longitude (x, y, z2) = ecliptic_longitude (x, y, z)) ∧
    0 ≤ ecliptic_longitude (x, y, z) ∧ ecliptic_longitude (x, y, z) < 360 :=
  ⟨rfl, fun _ => rfl, pymod_nonneg _ (by norm_num), pymod_lt _ (by norm_num)⟩

/-- C8 (witness): the formula, z-independence and range at `(1, 0, 0)`. -/
theorem c8_witness :
    ¬((1 : ℝ) = 0 ∧ (0 : ℝ) = 0 ∧ (0 : ℝ) = 0) ∧
    (ecliptic_longitude (1, 0, 0) = spec_longitude 1 0 ∧
      (∀ z2 : ℝ, ecliptic_longitude (1, 0, z2) = ecliptic_longitude (1, 0, 0)) ∧
      0 ≤ ecliptic_longitude (1, 0, 0) ∧ ecliptic_longitude (1, 0, 0) < 360) :=
  ⟨by norm_num, c8_longitude_formula 1 0 0 (by norm_num)⟩

/-- C9 (confirmed): the reduction depends only on direction: scaling a
non-zero vector by any positive factor leaves the reduced longitude
unchanged, because `arg (k·z) = arg z` for `k > 0`. -/
theorem c9_scale_invariance (x y z k : ℝ) (hk : 0 < k)
    (hnz : ¬(x = 0 ∧ y = 0 ∧ z = 0)) :
    ecliptic_longitude (k * x, k * y, k * z) = ecliptic_longitude (x, y, z) := by
  have harg : atan2 (k * y) (k * x) = atan2 y x := by
    unfold atan2
    have h : (⟨k * x, k * y⟩ : ℂ) = (k : ℂ) * ⟨x, y⟩ := by
      apply Complex.ext <;> simp
    rw [h, Complex.arg_real_mul _ hk]
  show pymod (degrees (atan2 (k * y) (k * x)) + 360) 360 =
    pymod (degrees (atan2 y x) + 360) 360
  rw [harg]

/-- C9 (witness): scaling `(1, 2, 3)` by `2`. -/
theorem c9_witness :
    (0 : ℝ) < 2 ∧ ¬((1 : ℝ) = 0 ∧ (2 : ℝ) = 0 ∧ (3 : ℝ) = 0) ∧
    ecliptic_longitude (2 * 1, 2 * 2, 2 * 3) = ecliptic_longitude (1, 2, 3) :=
  ⟨by norm_num, by norm_num,
    c9_scale_invariance 1 2 3 2 (by norm_num) (by norm_num)⟩

